import Mathlib

/-!
Verification of the real-time broadcast subsystem of the IZA OS Project
Management Analytics Bot (`src/main.py`).

The embedding below models, from the source:

* the session registry `active_connections: Dict[str, WebSocket]` as an
  association list with Python-dict operations (`d[k] = v`, `d.pop(k, None)`,
  `d[k]` lookup);
* the three websocket endpoint handlers (`websocket_projects`,
  `websocket_portfolio`, `websocket_alerts`): accept, register, then an
  infinite `while True` body that checks the topic's global engine, fetches a
  snapshot, sends it (for alerts only when the snapshot is non-empty), and
  sleeps the topic interval; the whole loop is wrapped in
  `try ... except WebSocketDisconnect` whose handler pops the registry entry.
  Exceptions of any other class propagate uncaught.  A handler execution is
  driven by a finite script of per-cycle environment outcomes (engine-set
  flag, fetch result, send result);
* the `lifespan` startup sequence (construct `ProjectConfig`, construct the
  four engines with global assignment, `await data_collector.start()`,
  `await project_analyzer.load_models()`, with `except Exception: log; raise`)
  and the shutdown sequence (`if data_collector: await data_collector.stop()`).
-/

namespace IzaPM

/-- The session registry `active_connections: Dict[str, WebSocket]`
(`src/main.py:108`).  Keys are connection-id strings, values stand for the
websocket objects. -/
abbrev Registry := List (String × Nat)

/-- Python dict assignment `d[k] = v`: replace the value at an existing key
in place, otherwise append the new binding at the end. -/
def dictSet : Registry → String → Nat → Registry
  | [], k, v => [(k, v)]
  | p :: d, k, v => if p.1 = k then (k, v) :: d else p :: dictSet d k v

/-- Python dict lookup `d.get(k)`. -/
def dictGet? (d : Registry) (k : String) : Option Nat :=
  (d.find? (fun p => p.1 = k)).map (fun p => p.2)

/-- Python `d.pop(k, None)`: drop the binding at `k` when present; absent
keys are a no-op and raise nothing (`src/main.py:127,147,168`). -/
def dictPop (d : Registry) (k : String) : Registry :=
  d.filter (fun p => p.1 ≠ k)

/-- The three broadcast topics, one per websocket endpoint. -/
inductive Topic
  | project
  | portfolio
  | alert
deriving DecidableEq

/-- The connection-id tag of each endpoint, the literal part of the
formatted id string — projects_, portfolio_, alerts_
(`src/main.py:114,134,154`). -/
def topicTag : Topic → String
  | .project => "projects_"
  | .portfolio => "portfolio_"
  | .alert => "alerts_"

/-- The connection id: the topic tag followed by the decimal rendering of
the websocket's identity, with `wsid` standing for the Python id of the
websocket object. -/
def connectionId (t : Topic) (wsid : Nat) : String :=
  topicTag t ++ toString wsid

/-- The argument of `asyncio.sleep` in each handler loop:
2 for projects, 5 for portfolio, 10 for alerts
(`src/main.py:124,144,165`). -/
def topicInterval : Topic → Nat
  | .project => 2
  | .portfolio => 5
  | .alert => 10

/-- A snapshot value fetched from a topic source.  For the alert topic the
emptiness test `if alerts:` is emptiness of this list. -/
abbrev Snapshot := List Nat

/-- The class of an exception raised inside a handler body:
`WebSocketDisconnect` (the only class the `except` clause catches) or any
other exception class. -/
inductive ExcKind
  | disconnect
  | other
deriving DecidableEq

instance : DecidableEq (Except ExcKind Snapshot) := fun a b =>
  match a, b with
  | .ok x, .ok y =>
    if h : x = y then isTrue (by rw [h]) else isFalse (by simp [h])
  | .error x, .error y =>
    if h : x = y then isTrue (by rw [h]) else isFalse (by simp [h])
  | .ok _, .error _ => isFalse (by simp)
  | .error _, .ok _ => isFalse (by simp)

/-- The environment of one iteration of a handler's `while True` body:
whether the topic's global engine is set (`if project_analyzer:` etc.), the
outcome of the fetch call, and the outcome of `send_json` (`none` means the
send succeeds). -/
structure CycleEnv where
  ready : Bool
  fetchRes : Except ExcKind Snapshot
  sendRes : Option ExcKind
deriving DecidableEq

/-- Observable events of a handler loop: a fetch from the engine, a
delivered frame, and an interval suspension. -/
inductive Ev
  | fetchEv
  | send (snap : Snapshot)
  | sleep (secs : Nat)
deriving DecidableEq

/-- Outcome of one iteration of the `while True` body: continue looping
after the events, or raise an exception after the events. -/
inductive CycleOut
  | next (evs : List Ev)
  | raiseExc (evs : List Ev) (k : ExcKind)
deriving DecidableEq

/-- One iteration of a handler's `while True` body (`src/main.py:118-124`,
`138-144`, `158-165`): if the topic's engine global is unset, only the sleep
runs; otherwise fetch (propagating its exception), then — for the alert
topic only when the snapshot is non-empty — send (propagating its
exception), then sleep the topic interval. -/
def cycleBody (t : Topic) (env : CycleEnv) : CycleOut :=
  if env.ready then
    match env.fetchRes with
    | .error k => .raiseExc [.fetchEv] k
    | .ok snap =>
      if t = .alert ∧ snap = [] then
        .next [.fetchEv, .sleep (topicInterval t)]
      else
        match env.sendRes with
        | some k => .raiseExc [.fetchEv] k
        | none => .next [.fetchEv, .send snap, .sleep (topicInterval t)]
  else
    .next [.sleep (topicInterval t)]

/-- How a handler terminated: the `except WebSocketDisconnect` clause ran
(popping the registry entry), or an exception of another class propagated
out of the endpoint uncaught. -/
inductive TermKind
  | disconnectHandled
  | uncaught (k : ExcKind)
deriving DecidableEq

/-- State after running a handler against a finite script: the registry,
the events that occurred, and how (whether) the handler terminated
(`none` = the script ran out with the loop still live). -/
structure HState where
  reg : Registry
  events : List Ev
  term : Option TermKind
deriving DecidableEq

/-- The `try: while True: ... except WebSocketDisconnect: pop` part of a
handler (`src/main.py:117-128` and analogues): run cycle after cycle; a
`WebSocketDisconnect` raised anywhere in the body is caught and the entry
popped; any other exception propagates with the registry untouched. -/
def runLoop (t : Topic) (cid : String) : List CycleEnv → Registry → HState
  | [], reg => ⟨reg, [], none⟩
  | env :: rest, reg =>
    match cycleBody t env with
    | .next cevs =>
      let st := runLoop t cid rest reg
      ⟨st.reg, cevs ++ st.events, st.term⟩
    | .raiseExc cevs k =>
      match k with
      | .disconnect => ⟨dictPop reg cid, cevs, some .disconnectHandled⟩
      | .other => ⟨reg, cevs, some (.uncaught .other)⟩

/-- A whole endpoint handler (`websocket_projects` and analogues,
`src/main.py:111-128`): accept, compute the connection id, register it in
`active_connections`, then run the guarded loop. -/
def websocketHandler (t : Topic) (wsid : Nat) (script : List CycleEnv)
    (reg : Registry) : HState :=
  let cid := connectionId t wsid
  runLoop t cid script (dictSet reg cid wsid)

/-- The frames delivered by a list of events. -/
def evSends : List Ev → List Snapshot
  | [] => []
  | .send s :: rest => s :: evSends rest
  | .fetchEv :: rest => evSends rest
  | .sleep _ :: rest => evSends rest

/-- The frames delivered during one cycle. -/
def cycleSends : CycleOut → List Snapshot
  | .next evs => evSends evs
  | .raiseExc evs _ => evSends evs

/-- The four module-level engine globals (`src/main.py:33-36`); `true`
means the global has been assigned (is not `None`), which is exactly the
readiness test `if project_analyzer:` etc. of the handler loops. -/
structure Globals where
  project_analyzer : Bool
  portfolio_optimizer : Bool
  risk_analyzer : Bool
  data_collector : Bool
deriving DecidableEq

/-- The steps of the `lifespan` startup sequence in source order
(`src/main.py:47-61`). -/
inductive StartStep
  | mkConfig
  | mkCollector
  | mkAnalyzer
  | mkOptimizer
  | mkRisk
  | startCollector
  | loadModels
deriving DecidableEq

/-- The source order of the startup steps. -/
def startOrder : List StartStep :=
  [.mkConfig, .mkCollector, .mkAnalyzer, .mkOptimizer, .mkRisk,
   .startCollector, .loadModels]

/-- Which startup steps raise in a given run. -/
structure StartEnv where
  configFails : Bool
  collectorCtorFails : Bool
  analyzerCtorFails : Bool
  optimizerCtorFails : Bool
  riskCtorFails : Bool
  collectorStartFails : Bool
  loadModelsFails : Bool
deriving DecidableEq

/-- Whether a given step raises under `e`. -/
def stepFails (e : StartEnv) : StartStep → Bool
  | .mkConfig => e.configFails
  | .mkCollector => e.collectorCtorFails
  | .mkAnalyzer => e.analyzerCtorFails
  | .mkOptimizer => e.optimizerCtorFails
  | .mkRisk => e.riskCtorFails
  | .startCollector => e.collectorStartFails
  | .loadModels => e.loadModelsFails

/-- Result of the startup try-block: the engine globals as assigned so far,
the steps that completed, and the step whose exception was re-raised by
`except Exception: ... raise` (`none` on success). -/
structure StartResult where
  globals : Globals
  completed : List StartStep
  err : Option StartStep
deriving DecidableEq

/-- The `lifespan` startup sequence (`src/main.py:47-67`): construct the
config, construct the four engines (each global is assigned the moment its
constructor returns), start the data collector, load the project analyzer's
models.  The first raising step aborts the sequence; the `except` clause
logs and re-raises, so the error reaches the caller.  Note the globals
assigned before the raising step stay assigned. -/
def lifespanStartup (e : StartEnv) : StartResult :=
  let g0 : Globals := ⟨false, false, false, false⟩
  if e.configFails then ⟨g0, [], some .mkConfig⟩
  else if e.collectorCtorFails then ⟨g0, [.mkConfig], some .mkCollector⟩
  else
    let g1 : Globals := { g0 with data_collector := true }
    if e.analyzerCtorFails then
      ⟨g1, [.mkConfig, .mkCollector], some .mkAnalyzer⟩
    else
      let g2 : Globals := { g1 with project_analyzer := true }
      if e.optimizerCtorFails then
        ⟨g2, [.mkConfig, .mkCollector, .mkAnalyzer], some .mkOptimizer⟩
      else
        let g3 : Globals := { g2 with portfolio_optimizer := true }
        if e.riskCtorFails then
          ⟨g3, [.mkConfig, .mkCollector, .mkAnalyzer, .mkOptimizer],
            some .mkRisk⟩
        else
          let g4 : Globals := { g3 with risk_analyzer := true }
          if e.collectorStartFails then
            ⟨g4, [.mkConfig, .mkCollector, .mkAnalyzer, .mkOptimizer, .mkRisk],
              some .startCollector⟩
          else if e.loadModelsFails then
            ⟨g4, [.mkConfig, .mkCollector, .mkAnalyzer, .mkOptimizer, .mkRisk,
                  .startCollector],
              some .loadModels⟩
          else ⟨g4, startOrder, none⟩

/-- Actions the shutdown sequence could take: stop the data collector, or
terminate a session (the vocabulary the spec expects; the source only ever
emits the first). -/
inductive ShutAct
  | stopCollector
  | terminateSession (cid : String)
deriving DecidableEq

/-- The `lifespan` shutdown sequence after `yield` (`src/main.py:71-77`):
`if data_collector: await data_collector.stop()` and nothing else; the
session registry is not touched. -/
def lifespanShutdown (g : Globals) (reg : Registry) : List ShutAct × Registry :=
  ((if g.data_collector then [.stopCollector] else []), reg)

/-! ### Registry lemmas -/

/-- Lookup after a cons unfolds to a key comparison. -/
lemma dictGet?_cons (p : String × Nat) (d : Registry) (k : String) :
    dictGet? (p :: d) k = if p.1 = k then some p.2 else dictGet? d k := by
  by_cases h : p.1 = k <;> simp [dictGet?, List.find?_cons, h]

/-- Dict assignment makes the assigned key map to the new value. -/
lemma dictGet?_set_self (d : Registry) (k : String) (v : Nat) :
    dictGet? (dictSet d k v) k = some v := by
  induction d with
  | nil => simp [dictSet, dictGet?_cons]
  | cons p d ih =>
    by_cases h : p.1 = k
    · simp [dictSet, h, dictGet?_cons]
    · simp [dictSet, h, dictGet?_cons, ih]

/-- Dict assignment leaves every other key's binding unchanged. -/
lemma dictGet?_set_other (d : Registry) (k k2 : String) (v : Nat)
    (h2 : k2 ≠ k) :
    dictGet? (dictSet d k v) k2 = dictGet? d k2 := by
  induction d with
  | nil =>
    show dictGet? [(k, v)] k2 = dictGet? [] k2
    rw [dictGet?_cons, if_neg (fun hh => h2 hh.symm)]
  | cons p d ih =>
    by_cases h : p.1 = k
    · rw [show dictSet (p :: d) k v = (k, v) :: d from by simp [dictSet, h]]
      rw [dictGet?_cons, dictGet?_cons, if_neg (fun hh => h2 hh.symm),
        if_neg (fun hh => h2 ((h.symm.trans hh).symm))]
    · rw [show dictSet (p :: d) k v = p :: dictSet d k v from by
        simp [dictSet, h]]
      rw [dictGet?_cons, dictGet?_cons, ih]

/-- After popping a key it is no longer bound. -/
lemma dictGet?_pop_self (d : Registry) (k : String) :
    dictGet? (dictPop d k) k = none := by
  induction d with
  | nil => rfl
  | cons p d ih =>
    by_cases h : p.1 = k
    · rw [show dictPop (p :: d) k = dictPop d k from by
        simp [dictPop, List.filter_cons, h]]
      exact ih
    · rw [show dictPop (p :: d) k = p :: dictPop d k from by
        simp [dictPop, List.filter_cons, h]]
      rw [dictGet?_cons, if_neg h, ih]

/-- Popping an absent key is the identity. -/
lemma dictPop_absent (d : Registry) (k : String) (h : dictGet? d k = none) :
    dictPop d k = d := by
  induction d with
  | nil => rfl
  | cons p d ih =>
    rw [dictGet?_cons] at h
    by_cases hp : p.1 = k
    · simp [hp] at h
    · rw [if_neg hp] at h
      rw [show dictPop (p :: d) k = p :: dictPop d k from by
        simp [dictPop, List.filter_cons, hp]]
      rw [ih h]

/-- Popping twice equals popping once. -/
lemma dictPop_pop (d : Registry) (k : String) :
    dictPop (dictPop d k) k = dictPop d k := by
  simp [dictPop, List.filter_filter]

/-- Popping one key leaves every other key's binding unchanged. -/
lemma dictGet?_pop_other (d : Registry) (k k2 : String) (h2 : k2 ≠ k) :
    dictGet? (dictPop d k) k2 = dictGet? d k2 := by
  induction d with
  | nil => rfl
  | cons p d ih =>
    by_cases hp : p.1 = k
    · rw [show dictPop (p :: d) k = dictPop d k by
        simp [dictPop, List.filter_cons, hp]]
      rw [ih, dictGet?_cons, if_neg (hp ▸ fun hh => h2 hh.symm)]
    · rw [show dictPop (p :: d) k = p :: dictPop d k by
        simp [dictPop, List.filter_cons, hp]]
      rw [dictGet?_cons, dictGet?_cons, ih]

/-! ### Handler-loop lemmas -/

/-- Running the guarded loop either ends in the `except WebSocketDisconnect`
clause, in which case the connection id has been popped, or it does not, in
which case the registry is exactly as it was when the loop began. -/
lemma runLoop_reg_cases (t : Topic) (cid : String) (script : List CycleEnv)
    (reg : Registry) :
    ((runLoop t cid script reg).term = some .disconnectHandled ∧
      (runLoop t cid script reg).reg = dictPop reg cid) ∨
    ((runLoop t cid script reg).term ≠ some .disconnectHandled ∧
      (runLoop t cid script reg).reg = reg) := by
  induction script with
  | nil => exact Or.inr ⟨by simp [runLoop], rfl⟩
  | cons env rest ih =>
    cases hcb : cycleBody t env with
    | next cevs =>
      simp only [runLoop, hcb]
      exact ih
    | raiseExc cevs k =>
      cases k
      · simp [runLoop, hcb]
      · simp [runLoop, hcb]

/-! ### Claims -/

/-- Claim C1, counterexample.  The claim says the registry entry is removed
whenever the handler terminates for any reason.  Here a handler terminates
because its send raised an exception that is not `WebSocketDisconnect`
(only that class is caught), and its registry entry is retained. -/
theorem handler_nonDisconnect_retains_entry_cex :
    (websocketHandler .project 7 [⟨true, .ok [5], some .other⟩] []).term =
        some (.uncaught .other) ∧
    dictGet? (websocketHandler .project 7 [⟨true, .ok [5], some .other⟩] []).reg
        (connectionId .project 7) = some 7 := by
  decide

/-- Claim C1, amended: a handler removes its session's registry entry
exactly when it terminates through the `except WebSocketDisconnect` clause;
when it terminates because an exception of any other class propagated
uncaught, the entry is retained. -/
theorem handler_cleanup (t : Topic) (wsid : Nat) (script : List CycleEnv)
    (reg₀ : Registry) :
    ((websocketHandler t wsid script reg₀).term = some .disconnectHandled →
      dictGet? (websocketHandler t wsid script reg₀).reg
        (connectionId t wsid) = none) ∧
    (∀ k, (websocketHandler t wsid script reg₀).term = some (.uncaught k) →
      dictGet? (websocketHandler t wsid script reg₀).reg
        (connectionId t wsid) = some wsid) := by
  have hdef : websocketHandler t wsid script reg₀ =
      runLoop t (connectionId t wsid) script
        (dictSet reg₀ (connectionId t wsid) wsid) := rfl
  have H := runLoop_reg_cases t (connectionId t wsid) script
    (dictSet reg₀ (connectionId t wsid) wsid)
  rw [hdef]
  constructor
  · intro hterm
    rcases H with ⟨_, hreg⟩ | ⟨hne, _⟩
    · rw [hreg]
      exact dictGet?_pop_self _ _
    · exact absurd hterm hne
  · intro k hterm
    rcases H with ⟨hd, _⟩ | ⟨_, hreg⟩
    · rw [hd] at hterm
      simp at hterm
    · rw [hreg]
      exact dictGet?_set_self _ _ _

/-- Claim C1, witness for the amended theorem at a concrete disconnect. -/
theorem handler_cleanup_witness :
    dictGet? (websocketHandler .portfolio 2
        [⟨true, .ok [1], some .disconnect⟩] []).reg
      (connectionId .portfolio 2) = none :=
  (handler_cleanup .portfolio 2 [⟨true, .ok [1], some .disconnect⟩] []).1
    (by decide)

/-- Claim C2, counterexample.  The claim says a fetch error is logged, the
cycle skipped, and the loop continues.  Here the first cycle's fetch raises
a non-disconnect exception: the handler terminates at once with the error
uncaught — the second scripted cycle never runs (no further events) and the
registry entry survives. -/
theorem fetch_error_terminates_loop_cex :
    websocketHandler .project 1
        [⟨true, .error .other, none⟩, ⟨true, .ok [3], none⟩] [] =
      ⟨[("projects_1", 1)], [.fetchEv], some (.uncaught .other)⟩ := by
  decide

/-- Claim C2, amended: a fetch error is not caught by the handler (only
`WebSocketDisconnect` is): it terminates the loop immediately — no send, no
sleep, no later cycle — and propagates uncaught, leaving the registry
entry in place. -/
theorem fetch_error_uncaught (t : Topic) (cid : String) (rest : List CycleEnv)
    (reg : Registry) (s : Option ExcKind) :
    runLoop t cid (⟨true, .error .other, s⟩ :: rest) reg =
      ⟨reg, [.fetchEv], some (.uncaught .other)⟩ :=
  rfl

/-- Claim C3, counterexample.  The claim says a second registration under
the same identifier fails with `DuplicateSessionError` and the original
entry survives.  Registration is a plain dict assignment: the second one
succeeds and replaces the original value. -/
theorem duplicate_registration_overwrites_cex :
    dictSet (dictSet [] "projects_1" 1) "projects_1" 2 =
      [("projects_1", 2)] := by
  decide

/-- Claim C3, amended: registering under an identifier already present
raises nothing and overwrites — afterwards the identifier maps to the new
session, and every other entry is unchanged. -/
theorem duplicate_registration_overwrites (d : Registry) (k : String)
    (v : Nat) :
    dictGet? (dictSet d k v) k = some v ∧
    (∀ k2, k2 ≠ k → dictGet? (dictSet d k v) k2 = dictGet? d k2) :=
  ⟨dictGet?_set_self d k v, fun k2 h2 => dictGet?_set_other d k k2 v h2⟩

/-- Claim C3, witness for the amended theorem at a concrete input. -/
theorem duplicate_registration_overwrites_witness :
    dictGet? (dictSet [("projects_1", 1)] "projects_1" 2) "alerts_3" =
      dictGet? [("projects_1", 1)] "alerts_3" :=
  (duplicate_registration_overwrites [("projects_1", 1)] "projects_1" 2).2
    "alerts_3" (by decide)

/-- Claim C4, counterexample.  The claim says a readiness flag becomes true
only after its engine's initialization — including the Project Analyzer's
model load — has completed.  In a run where `load_models` raises, the
`project_analyzer` global (the flag the handler loops test) is already set:
it was assigned when the constructor returned, before data collection
started and before the model load ran. -/
theorem readiness_before_model_load_cex :
    (lifespanStartup ⟨false, false, false, false, false, false,
        true⟩).globals.project_analyzer = true ∧
    (lifespanStartup ⟨false, false, false, false, false, false,
        true⟩).err = some .loadModels := by
  decide

/-- Claim C4, amended: a cycle that begins while the topic's engine global
is unset performs no fetch and no delivery (only the interval sleep), and
the `project_analyzer` readiness flag becomes true exactly when the
analyzer's constructor step completes — before the data-collector start and
the model load, not after them. -/
theorem readiness_after_construction :
    (∀ (t : Topic) (f : Except ExcKind Snapshot) (s : Option ExcKind),
      cycleBody t ⟨false, f, s⟩ = .next [.sleep (topicInterval t)]) ∧
    (∀ e : StartEnv,
      (lifespanStartup e).globals.project_analyzer =
        (lifespanStartup e).completed.contains .mkAnalyzer) := by
  constructor
  · intro t f s
    rfl
  · intro e
    rcases e with ⟨a, b, c, d2, f, g, h⟩
    cases a <;> cases b <;> cases c <;> cases d2 <;> cases f <;> cases g <;>
      cases h <;> decide

/-- Claim C5, counterexample.  The claim says `stop()` deregisters every
session and signals all handlers.  With one open session, the shutdown
sequence leaves the registry unchanged and emits no session-termination
action. -/
theorem shutdown_retains_sessions_cex :
    (lifespanShutdown ⟨true, true, true, true⟩ [("projects_1", 1)]).2 =
      [("projects_1", 1)] ∧
    ShutAct.terminateSession "projects_1" ∉
      (lifespanShutdown ⟨true, true, true, true⟩ [("projects_1", 1)]).1 := by
  decide

/-- Claim C5, amended: the shutdown sequence stops the data collector (when
it was constructed) and does nothing else — it never touches the session
registry and emits no action other than stopping the collector. -/
theorem shutdown_only_stops_collector (g : Globals) (reg : Registry) :
    (lifespanShutdown g reg).2 = reg ∧
    (ShutAct.stopCollector ∈ (lifespanShutdown g reg).1 ↔
      g.data_collector = true) ∧
    (∀ a ∈ (lifespanShutdown g reg).1, a = .stopCollector) := by
  rcases g with ⟨pa, po, ra, dc⟩
  cases dc <;> simp [lifespanShutdown]

/-- Claim C5, witness for the amended theorem at a concrete input. -/
theorem shutdown_only_stops_collector_witness :
    ShutAct.stopCollector = ShutAct.stopCollector :=
  (shutdown_only_stops_collector ⟨true, true, true, true⟩ []).2.2
    ShutAct.stopCollector (by decide)

/-- Claim C6: an alert cycle whose fetched snapshot is the empty collection
delivers zero frames, while a project or portfolio cycle with the engine
ready and a working transport delivers exactly one frame — whatever the
snapshot's content, so also when it equals the previous cycle's. -/
theorem delivery_per_cycle :
    (∀ s : Option ExcKind,
      cycleSends (cycleBody .alert ⟨true, .ok [], s⟩) = []) ∧
    (∀ t : Topic, t ≠ .alert → ∀ snap : Snapshot,
      cycleSends (cycleBody t ⟨true, .ok snap, none⟩) = [snap]) := by
  constructor
  · intro s
    rfl
  · intro t ht snap
    cases t
    · simp [cycleBody, cycleSends, evSends]
    · simp [cycleBody, cycleSends, evSends]
    · exact absurd rfl ht

/-- Claim C6, witness at a concrete project cycle. -/
theorem delivery_per_cycle_witness :
    cycleSends (cycleBody .project ⟨true, .ok [4], none⟩) = [[4]] :=
  delivery_per_cycle.2 .project (by decide) [4]

/-- Claim C7: the startup sequence performs its steps in the source order
config, collector, analyzer, optimizer, risk, collector start, model load;
the completed steps are always the longest failure-free prefix of that
order (so any failure aborts the rest), and the surfaced error is exactly
the first failing step (re-raised, not swallowed). -/
theorem startup_strict_order (e : StartEnv) :
    (lifespanStartup e).completed =
      startOrder.takeWhile (fun s => !stepFails e s) ∧
    (lifespanStartup e).err = startOrder.find? (stepFails e) := by
  rcases e with ⟨a, b, c, d2, f, g, h⟩
  cases a <;> cases b <;> cases c <;> cases d2 <;> cases f <;> cases g <;>
    cases h <;> decide

/-- Claim C8: the per-topic delivery cadence is a fixed constant — 2 for
Project, 5 for Portfolio, 10 for Alert — and every continuing cycle of a
topic's loop ends with a suspension of exactly that topic's interval. -/
theorem topic_intervals :
    topicInterval .project = 2 ∧ topicInterval .portfolio = 5 ∧
    topicInterval .alert = 10 ∧
    (∀ (t : Topic) (env : CycleEnv) (cevs : List Ev),
      cycleBody t env = .next cevs →
        cevs.getLast? = some (.sleep (topicInterval t))) := by
  refine ⟨rfl, rfl, rfl, ?_⟩
  intro t env cevs h
  rcases env with ⟨ready, fr, sr⟩
  cases ready
  · have hv : cevs = [Ev.sleep (topicInterval t)] := by
      simpa [cycleBody] using h.symm
    rw [hv]
    rfl
  · cases fr with
    | error k => simp [cycleBody] at h
    | ok snap =>
      by_cases hc : t = .alert ∧ snap = []
      · have hv : cevs = [Ev.fetchEv, Ev.sleep (topicInterval t)] := by
          simpa [cycleBody, hc.1, hc.2] using h.symm
        rw [hv]
        rfl
      · cases sr with
        | some k => simp [cycleBody, hc] at h
        | none =>
          have hv : cevs = [Ev.fetchEv, Ev.send snap,
              Ev.sleep (topicInterval t)] := by
            simpa [cycleBody, hc] using h.symm
          rw [hv]
          rfl

/-- Claim C8, witness at a concrete not-ready project cycle. -/
theorem topic_intervals_witness :
    ([Ev.sleep (topicInterval .project)] : List Ev).getLast? =
      some (.sleep (topicInterval .project)) :=
  topic_intervals.2.2.2 .project ⟨false, .ok [], none⟩
    [.sleep (topicInterval .project)] (by decide)

/-- Claim C9: removal from the registry is idempotent — popping an absent
identifier is a no-op that raises nothing, popping twice equals popping
once, and popping one identifier leaves every other entry's binding
unchanged. -/
theorem remove_idempotent (d : Registry) (k : String) :
    (dictGet? d k = none → dictPop d k = d) ∧
    dictPop (dictPop d k) k = dictPop d k ∧
    (∀ k2, k2 ≠ k → dictGet? (dictPop d k) k2 = dictGet? d k2) :=
  ⟨dictPop_absent d k, dictPop_pop d k,
    fun k2 h2 => dictGet?_pop_other d k k2 h2⟩

/-- Claim C9, witness: popping an absent identifier at a concrete input. -/
theorem remove_idempotent_witness :
    dictPop [("projects_1", 1)] "alerts_9" = [("projects_1", 1)] :=
  (remove_idempotent [("projects_1", 1)] "alerts_9").1 (by decide)

/-- Claim C10: a project or portfolio handler whose engine is ready on its
first cycle delivers its first frame right after registration — the fetch
and the send happen before the first interval sleep. -/
theorem first_frame_before_first_sleep (t : Topic) (ht : t ≠ .alert)
    (wsid : Nat) (snap : Snapshot) (rest : List CycleEnv) (reg : Registry) :
    (websocketHandler t wsid
        (⟨true, .ok snap, none⟩ :: rest) reg).events.take 3 =
      [.fetchEv, .send snap, .sleep (topicInterval t)] := by
  cases t
  · simp [websocketHandler, runLoop, cycleBody, List.take_succ_cons]
  · simp [websocketHandler, runLoop, cycleBody, List.take_succ_cons]
  · exact absurd rfl ht

/-- Claim C10, witness at a concrete first cycle. -/
theorem first_frame_before_first_sleep_witness :
    (websocketHandler .project 1 [⟨true, .ok [9], none⟩] []).events.take 3 =
      [.fetchEv, .send [9], .sleep (topicInterval .project)] :=
  first_frame_before_first_sleep .project (by decide) 1 [9] [] []

end IzaPM
